import Mathlib

/-!
Verification development for the FINN cybersecurity walkthrough notebook
`notebooks/end2end_example/cybersecurity/2-export-to-finn-and-verify.ipynb`.

The notebook is sequential glue code: it loads an exported ONNX model,
applies six tidy-up transformations from the FINN compiler library, marks
the input tensor datatype as BIPOLAR, saves the normalized model, and then
compares Brevitas execution against FINN-ONNX execution over a batch of
sample inputs, tallying agreement in `ok` and `nok` counters.

Tensors are embedded as flat lists of rationals (every tensor in the
notebook is rank 2 with a batch dimension of 1, so the flat list carries
all the information the notebook code inspects).  External library calls
(the Brevitas `forward`, `torch.sigmoid`, `execute_onnx`, the graph
transformations) are parameters of the embedded functions: the notebook
treats them as opaque and so do we.
-/

set_option maxRecDepth 10000

namespace Finn

/-- A tensor of the notebook, flattened: a list of rational values. -/
abbrev Tensor := List ℚ

/-- Embedding of `inference_with_brevitas` (cell 18 of the notebook):

    brevitas_output = brevitas_model.forward(current_inp)
    brevitas_output = torch.sigmoid(brevitas_output)
    brevitas_output = (brevitas_output.detach().numpy() > 0.5) * 1
    brevitas_output = 2*brevitas_output - 1

The trained network `forward` and `torch.sigmoid` are external library
calls, passed as parameters; sigmoid and the later steps act elementwise. -/
def inference_with_brevitas (forward : Tensor → Tensor) (sigmoid : ℚ → ℚ)
    (current_inp : Tensor) : Tensor :=
  let brevitas_output := forward current_inp
  let brevitas_output := brevitas_output.map sigmoid
  let brevitas_output := brevitas_output.map (fun y => if (1 : ℚ)/2 < y then 1 else 0)
  brevitas_output.map (fun y => 2 * y - 1)

/-- Embedding of `inference_with_finn_onnx` (cell 21 of the notebook):

    current_inp = np.pad(current_inp, [(0, 0), (0, 7)])
    current_inp = 2*current_inp-1
    current_inp = current_inp.reshape(finnonnx_model_in_shape)
    input_dict = \x7bfinnonnx_in_tensor_name : current_inp\x7d
    output_dict = oxe.execute_onnx(model_for_sim, input_dict)
    finn_output = output_dict[finnonnx_out_tensor_name]

On flat tensors the reshape is the identity and the singleton input and
output dictionaries collapse, so the embedding pads with seven zeros,
rescales to bipolar, and hands the tensor to the external `execute_onnx`. -/
def inference_with_finn_onnx (execute_onnx : Tensor → Tensor)
    (current_inp : Tensor) : Tensor :=
  let current_inp := current_inp ++ List.replicate 7 0
  let current_inp := current_inp.map (fun x => 2 * x - 1)
  execute_onnx current_inp

/-- The tensor `inference_with_finn_onnx` feeds to `execute_onnx`: the
input padded with seven zeros and then rescaled by `x -> 2*x - 1`. -/
def finn_preprocess (current_inp : Tensor) : Tensor :=
  (current_inp ++ List.replicate 7 0).map (fun x => 2 * x - 1)

/-- One iteration of the verification loop (cell 23 of the notebook),
acting on the `(ok, nok)` tally:

    brevitas_output = inference_with_brevitas(current_inp)
    finn_output = inference_with_finn_onnx(current_inp)
    ok += 1 if finn_output == brevitas_output else 0
    nok += 1 if finn_output != brevitas_output else 0

`fb` is the Brevitas inference path and `ff` the FINN-ONNX one. -/
def verifyStep (fb ff : Tensor → Tensor) (acc : Nat × Nat)
    (current_inp : Tensor) : Nat × Nat :=
  let brevitas_output := fb current_inp
  let finn_output := ff current_inp
  let ok := acc.1 + (if finn_output = brevitas_output then 1 else 0)
  let nok := acc.2 + (if finn_output ≠ brevitas_output then 1 else 0)
  (ok, nok)

/-- The verification loop of cell 23, starting from `ok = 0`, `nok = 0`
and folding `verifyStep` over the batch of sample inputs. -/
def verifyLoop (fb ff : Tensor → Tensor) (inputs : List Tensor) : Nat × Nat :=
  inputs.foldl (verifyStep fb ff) (0, 0)

/-- The pass message printed by cell 24 when `ok == n_verification_inputs`. -/
def successMsg : String :=
  "Verification succeeded. Brevitas and FINN-ONNX execution outputs are identical"

/-- The fail message printed by cell 24 otherwise. -/
def failMsg : String :=
  "Verification failed. Brevitas and FINN-ONNX execution outputs are NOT identical"

/-- Embedding of cell 24:

    if ok == n_verification_inputs:
        print(pass message)
    else:
        print(fail message)
-/
def finalMessage (ok n_verification_inputs : Nat) : String :=
  if ok = n_verification_inputs then successMsg else failMsg

/-- The six tidy-up transformations the notebook imports from the FINN
compiler library (cell 9). Their action on a model is external. -/
inductive Transformation where
  | InferShapes
  | FoldConstants
  | GiveUniqueNodeNames
  | GiveReadableTensorNames
  | InferDataTypes
  | RemoveStaticGraphInputs
deriving DecidableEq, Repr

/-- Embedding of the tidy-up pipeline of cell 9, with the external
`transform` method of `ModelWrapper` as a parameter:

    model_for_sim = model_for_sim.transform(InferShapes())
    model_for_sim = model_for_sim.transform(FoldConstants())
    model_for_sim = model_for_sim.transform(GiveUniqueNodeNames())
    model_for_sim = model_for_sim.transform(GiveReadableTensorNames())
    model_for_sim = model_for_sim.transform(InferDataTypes())
    model_for_sim = model_for_sim.transform(RemoveStaticGraphInputs())
-/
def tidyUpPipeline {M : Type} (transform : M → Transformation → M) (model_for_sim : M) : M :=
  let model_for_sim := transform model_for_sim .InferShapes
  let model_for_sim := transform model_for_sim .FoldConstants
  let model_for_sim := transform model_for_sim .GiveUniqueNodeNames
  let model_for_sim := transform model_for_sim .GiveReadableTensorNames
  let model_for_sim := transform model_for_sim .InferDataTypes
  transform model_for_sim .RemoveStaticGraphInputs

/-- The list of transformations of cell 9 in source order. -/
def tidyUpTransformations : List Transformation :=
  [.InferShapes, .FoldConstants, .GiveUniqueNodeNames,
   .GiveReadableTensorNames, .InferDataTypes, .RemoveStaticGraphInputs]

/-- Modelled from the spec: the `DataType` enumeration of the FINN compiler
library (`finn.core.datatype`), whose source is not part of the notebook.
The notebook mentions FLOAT32 (the default) and BIPOLAR (the marking,
cell 11); BINARY stands for the remaining members. -/
inductive DataType where
  | FLOAT32
  | BIPOLAR
  | BINARY
deriving DecidableEq, Repr

/-- Modelled from the spec: the state of a `ModelWrapper` of the FINN
compiler library that the notebook inspects, namely the names of the graph
inputs and outputs and the per-tensor datatype annotations; the rest of
the serialized graph is opaque to the notebook and kept abstract. -/
structure ModelWrapper where
  graphInputNames : List String
  graphOutputNames : List String
  tensorDatatypes : String → DataType
  opaqueGraph : Nat

/-- Modelled from the spec: `ModelWrapper.set_tensor_datatype` stores a
datatype annotation for a named tensor (the marking step, cell 11). -/
def set_tensor_datatype (m : ModelWrapper) (tensor_name : String)
    (datatype : DataType) : ModelWrapper :=
  { m with tensorDatatypes :=
      fun n => if n = tensor_name then datatype else m.tensorDatatypes n }

/-- Modelled from the spec: `ModelWrapper.get_tensor_datatype` reads the
stored datatype annotation of a named tensor. -/
def get_tensor_datatype (m : ModelWrapper) (tensor_name : String) : DataType :=
  m.tensorDatatypes tensor_name

/-- A file system mapping file names to serialized models: the notebook
reads `cybsec-mlp.onnx` and writes `cybsec-mlp-verified.onnx`, and the
serialized form is identified with the in-memory `ModelWrapper`. -/
abbrev FileSystem := String → Option ModelWrapper

/-- The state after the preparation cells: the file system after the save
and the in-memory `model_for_sim` used by the later execution cells. -/
structure PrepResult where
  fs : FileSystem
  model_for_sim : ModelWrapper

/-- Embedding of the preparation cells 5, 9 and 11 of the notebook:

    model_for_sim = ModelWrapper("cybsec-mlp.onnx")
    ... the six tidy-up transformations ...
    finnonnx_in_tensor_name = model_for_sim.graph.input[0].name
    model_for_sim.set_tensor_datatype(finnonnx_in_tensor_name, DataType.BIPOLAR)
    model_for_sim.save("cybsec-mlp-verified.onnx")

Loading a missing file, or indexing `graph.input[0]` of a graph without
inputs, raises in Python; both fallible steps return `none` here. -/
def prepareAndSave (transform : ModelWrapper → Transformation → ModelWrapper)
    (fs0 : FileSystem) : Option PrepResult :=
  match fs0 "cybsec-mlp.onnx" with
  | none => none
  | some model_for_sim =>
    let model_for_sim := tidyUpPipeline transform model_for_sim
    match model_for_sim.graphInputNames.head? with
    | none => none
    | some finnonnx_in_tensor_name =>
      let model_for_sim :=
        set_tensor_datatype model_for_sim finnonnx_in_tensor_name .BIPOLAR
      some { fs := fun f => if f = "cybsec-mlp-verified.onnx"
                            then some model_for_sim else fs0 f,
             model_for_sim := model_for_sim }

/-- Modelled from the spec: the quantized UNSW-NB15 test dataset produced
by `dataloader_quantized.UNSW_NB15_quantized` (repository code outside the
notebook). Its `data` field is a 2-D tensor, embedded as a list of rows;
per the spec each row is a boolean-encoded feature vector followed by a
final label column. -/
structure QuantizedDataset where
  data : List (List ℚ)

/-- The number of verification samples fixed by cell 15. -/
def n_verification_inputs : Nat := 100

/-- Embedding of the batch slicing of cell 15:

    input_tensor = test_quantized_dataset.data[:n_verification_inputs,:-1]

the first `n_verification_inputs` rows with the final (label) column
excluded. -/
def input_tensor (test_quantized_dataset : QuantizedDataset) : List (List ℚ) :=
  (test_quantized_dataset.data.take n_verification_inputs).map List.dropLast

/-- The sequential control flow of the notebook with every fallible
external call as an `Except` parameter, in cell order: load the model file
(cell 5), load the dataset CSVs (cell 15), load the trained checkpoint
(cell 17), then run the verification loop (cell 23, whose `execute_onnx`
calls may raise, e.g. on a shape mismatch).  The notebook has no
`try`/`except` of its own, so the embedding is a plain bind chain. -/
def runScript {E Model Dataset Checkpoint : Type}
    (loadModel : Except E Model)
    (loadDataset : Except E Dataset)
    (loadCheckpoint : Except E Checkpoint)
    (runVerification : Model → Dataset → Checkpoint → Except E (Nat × Nat)) :
    Except E (Nat × Nat) := do
  let model_for_sim ← loadModel
  let test_quantized_dataset ← loadDataset
  let trained_state_dict ← loadCheckpoint
  runVerification model_for_sim test_quantized_dataset trained_state_dict

/-- Embedding of `nn.Dropout(p)`: in training mode it zeroes the entries
selected by the random `mask` and rescales the rest by `1/(1-p)`; in eval
mode (after `brevitas_model.eval()`) it is the identity. -/
def dropout (p : ℚ) (training : Bool) (mask : Nat → Bool) (x : Tensor) : Tensor :=
  if training then
    x.mapIdx (fun i v => if mask i then 0 else v * (1 / (1 - p)))
  else x

/-- The trained non-random layers of the Brevitas `nn.Sequential` model of
cell 17: three QuantLinear + BatchNorm1d + QuantReLU blocks and a final
QuantLinear.  Each layer is an external library call, kept abstract. -/
structure BrevitasLayers where
  fc1 : Tensor → Tensor
  bn1 : Tensor → Tensor
  relu1 : Tensor → Tensor
  fc2 : Tensor → Tensor
  bn2 : Tensor → Tensor
  relu2 : Tensor → Tensor
  fc3 : Tensor → Tensor
  bn3 : Tensor → Tensor
  relu3 : Tensor → Tensor
  fc4 : Tensor → Tensor

/-- Embedding of `brevitas_model.forward`: the `nn.Sequential` of cell 17
applied layer by layer, with the three `nn.Dropout(0.5)` layers given
their own random masks (`masks 0`, `masks 1`, `masks 2`) and the shared
training flag (`False` after `brevitas_model.eval()` in cell 23). -/
def brevitas_forward (L : BrevitasLayers) (training : Bool)
    (masks : Nat → Nat → Bool) (x : Tensor) : Tensor :=
  let x := L.fc1 x
  let x := L.bn1 x
  let x := dropout (1/2) training (masks 0) x
  let x := L.relu1 x
  let x := L.fc2 x
  let x := L.bn2 x
  let x := dropout (1/2) training (masks 1) x
  let x := L.relu2 x
  let x := L.fc3 x
  let x := L.bn3 x
  let x := dropout (1/2) training (masks 2) x
  let x := L.relu3 x
  L.fc4 x

/-- The agreement relation as the spec words it (for comparison with the
code): the numeric output of the exported model for an input equals the
output of the original training-framework model for the same input, the
latter being the raw value of `brevitas_model.forward`. -/
def spec_numeric_agreement (forward : Tensor → Tensor)
    (execute_onnx : Tensor → Tensor) (current_inp : Tensor) : Prop :=
  inference_with_finn_onnx execute_onnx current_inp = forward current_inp

/-- A concrete instantiation of `brevitas_model.forward`: a network whose
raw output on every input is the scalar tensor `[4]`. -/
def cexForward : Tensor → Tensor := fun _ => [4]

/-- A concrete instantiation of `torch.sigmoid`: a monotone map sending a
positive raw score `y` to `y / (1 + y)` (so `4` goes to `4/5`, above the
`0.5` threshold, as the real sigmoid would). -/
def cexSigmoid : ℚ → ℚ := fun y => y / (1 + y)

/-- A concrete instantiation of `oxe.execute_onnx` on the normalized
graph: the exported graph ends in the same sigmoid-threshold-bipolar
stage, so its output on every input is the bipolar tensor `[1]`. -/
def cexExecuteOnnx : Tensor → Tensor := fun _ => [1]

/-- A concrete sample input of the batch shape the notebook uses: a
593-element binary feature vector (here all zeros). -/
def cexInput : Tensor := List.replicate 593 0

/-- A concrete instantiation of the `transform` method for witnesses:
every transformation leaves the model unchanged. -/
def prepWitnessTransform : ModelWrapper → Transformation → ModelWrapper :=
  fun m _ => m

/-- A concrete exported model for witnesses, with the tensor names the
notebook prints (`global_in`, `global_out`) and default FLOAT32
annotations. -/
def prepWitnessModel : ModelWrapper :=
  { graphInputNames := ["global_in"]
    graphOutputNames := ["global_out"]
    tensorDatatypes := fun _ => .FLOAT32
    opaqueGraph := 0 }

/-- A concrete file system for witnesses holding only the exported model
file `cybsec-mlp.onnx`. -/
def prepWitnessFS : FileSystem :=
  fun f => if f = "cybsec-mlp.onnx" then some prepWitnessModel else none

/-- The witness model after the marking step. -/
def prepWitnessMarked : ModelWrapper :=
  set_tensor_datatype prepWitnessModel "global_in" .BIPOLAR

/-- The witness result of the preparation cells on `prepWitnessFS`. -/
def prepWitnessResult : PrepResult :=
  { fs := fun f => if f = "cybsec-mlp-verified.onnx"
                   then some prepWitnessMarked else prepWitnessFS f
    model_for_sim := prepWitnessMarked }

/-- A concrete dataset for witnesses: 100 rows of 594 zeros (593 features
plus the label column). -/
def dsWitness : QuantizedDataset :=
  { data := List.replicate 100 (List.replicate 594 0) }

/-- Helper: each `verifyStep` either increments `ok` (when the FINN output
equals the Brevitas output) or increments `nok` (when it does not). -/
lemma verifyStep_eq_cases (fb ff : Tensor → Tensor) (acc : Nat × Nat)
    (current_inp : Tensor) :
    (ff current_inp = fb current_inp ∧
      verifyStep fb ff acc current_inp = (acc.1 + 1, acc.2)) ∨
    (ff current_inp ≠ fb current_inp ∧
      verifyStep fb ff acc current_inp = (acc.1, acc.2 + 1)) := by
  by_cases h : ff current_inp = fb current_inp
  · left
    exact ⟨h, by simp [verifyStep, h]⟩
  · right
    exact ⟨h, by simp [verifyStep, h]⟩

/-- Helper: folding `verifyStep` adds the number of processed samples to
the sum of the two counters. -/
lemma foldl_verifyStep_sum (fb ff : Tensor → Tensor) :
    ∀ (inputs : List Tensor) (acc : Nat × Nat),
      (inputs.foldl (verifyStep fb ff) acc).1 +
        (inputs.foldl (verifyStep fb ff) acc).2 = acc.1 + acc.2 + inputs.length := by
  intro inputs
  induction inputs with
  | nil => intro acc; simp
  | cons a l ih =>
    intro acc
    rcases verifyStep_eq_cases fb ff acc a with ⟨_, h⟩ | ⟨_, h⟩ <;>
      simp [List.foldl_cons, h, ih] <;> omega

/-- C1 (counterexample): the claim, as stated, says a sample is tallied as
agreeing exactly when the FINN numeric output equals the original
output of the training-framework model.  With concrete instantiations of the
external calls — a network whose raw output is `[4]`, a sigmoid sending
`4` above the `0.5` threshold, and a graph execution returning the bipolar
`[1]` — the loop body counts the sample as `ok`, yet the FINN output `[1]`
differs from the output `[4]` of the training-framework model. -/
theorem spec_agreement_not_what_is_tallied_cex :
    verifyStep (inference_with_brevitas cexForward cexSigmoid)
        (inference_with_finn_onnx cexExecuteOnnx) (0, 0) cexInput = (1, 0) ∧
    ¬ spec_numeric_agreement cexForward cexExecuteOnnx cexInput := by
  constructor
  · norm_num [verifyStep, inference_with_brevitas, inference_with_finn_onnx,
      cexForward, cexSigmoid, cexExecuteOnnx]
  · norm_num [spec_numeric_agreement, inference_with_finn_onnx,
      cexForward, cexExecuteOnnx]

/-- C1 (amended): each iteration of the verification loop counts the
sample as agreeing (increments `ok`) exactly when the FINN-ONNX execution
output equals the Brevitas output after the sigmoid, `0.5`-threshold and
bipolar post-processing of `inference_with_brevitas`; otherwise it
increments `nok`. -/
theorem tally_counts_postprocessed_agreement (forward : Tensor → Tensor)
    (sigmoid : ℚ → ℚ) (execute_onnx : Tensor → Tensor) (acc : Nat × Nat)
    (current_inp : Tensor) :
    verifyStep (inference_with_brevitas forward sigmoid)
        (inference_with_finn_onnx execute_onnx) acc current_inp =
      if inference_with_finn_onnx execute_onnx current_inp =
          inference_with_brevitas forward sigmoid current_inp
      then (acc.1 + 1, acc.2)
      else (acc.1, acc.2 + 1) := by
  by_cases h : inference_with_finn_onnx execute_onnx current_inp =
      inference_with_brevitas forward sigmoid current_inp <;>
    simp [verifyStep, h]

/-- C2: the final cell prints the pass message exactly when
`ok = n_verification_inputs`, and the fail message exactly otherwise. -/
theorem final_message_iff_all_ok (ok n : Nat) :
    (finalMessage ok n = successMsg ↔ ok = n) ∧
    (finalMessage ok n = failMsg ↔ ok ≠ n) := by
  unfold finalMessage
  by_cases h : ok = n <;> simp [h, successMsg, failMsg]

/-- C3: starting from `ok = 0`, `nok = 0`, every iteration increments
exactly one of the two counters by one (`ok` when the outputs compare
equal, `nok` when they compare unequal), so after the first `k` samples
`ok + nok = k`, and after the full loop `ok + nok` is the number of
inputs. -/
theorem tally_loop_invariant (fb ff : Tensor → Tensor) (inputs : List Tensor) :
    (∀ (acc : Nat × Nat) (inp : Tensor),
      (ff inp = fb inp → verifyStep fb ff acc inp = (acc.1 + 1, acc.2)) ∧
      (ff inp ≠ fb inp → verifyStep fb ff acc inp = (acc.1, acc.2 + 1))) ∧
    (∀ k, k ≤ inputs.length →
      (verifyLoop fb ff (inputs.take k)).1 +
        (verifyLoop fb ff (inputs.take k)).2 = k) ∧
    (verifyLoop fb ff inputs).1 + (verifyLoop fb ff inputs).2 = inputs.length := by
  refine ⟨fun acc inp => ⟨fun h => by simp [verifyStep, h],
    fun h => by simp [verifyStep, h]⟩, fun k hk => ?_, ?_⟩
  · have := foldl_verifyStep_sum fb ff (inputs.take k) (0, 0)
    simpa [verifyLoop, List.length_take, Nat.min_eq_left hk] using this
  · simpa [verifyLoop] using foldl_verifyStep_sum fb ff inputs (0, 0)

/-- C3 (witness): on a concrete batch of three samples with both execution
paths the identity, after the first two samples the tally sums to two. -/
theorem tally_loop_invariant_witness :
    (verifyLoop id id ((List.replicate 3 [(0 : ℚ)]).take 2)).1 +
      (verifyLoop id id ((List.replicate 3 [(0 : ℚ)]).take 2)).2 = 2 :=
  (tally_loop_invariant id id (List.replicate 3 [0])).2.1 2 (by simp)

/-- C4: the tidy-up pipeline of the notebook is the left fold of the
external `transform` method over exactly the six transformations
InferShapes, FoldConstants, GiveUniqueNodeNames, GiveReadableTensorNames,
InferDataTypes, RemoveStaticGraphInputs, in that fixed order. -/
theorem tidy_up_exactly_six_in_order {M : Type}
    (transform : M → Transformation → M) (model_for_sim : M) :
    tidyUpPipeline transform model_for_sim =
      tidyUpTransformations.foldl transform model_for_sim ∧
    tidyUpTransformations =
      [.InferShapes, .FoldConstants, .GiveUniqueNodeNames,
       .GiveReadableTensorNames, .InferDataTypes, .RemoveStaticGraphInputs] ∧
    tidyUpTransformations.length = 6 :=
  ⟨rfl, rfl, rfl⟩

/-- C5: for the model produced by the normalization passes, marking its
first graph input with `set_tensor_datatype ... BIPOLAR` makes the next
`get_tensor_datatype` on that tensor name return `DataType.BIPOLAR`. -/
theorem marked_input_datatype_bipolar (model_for_sim : ModelWrapper)
    (finnonnx_in_tensor_name : String)
    (h : model_for_sim.graphInputNames.head? = some finnonnx_in_tensor_name) :
    get_tensor_datatype
      (set_tensor_datatype model_for_sim finnonnx_in_tensor_name DataType.BIPOLAR)
      finnonnx_in_tensor_name = DataType.BIPOLAR := by
  simp [get_tensor_datatype, set_tensor_datatype]

/-- C5 (witness): marking the input `global_in` of the concrete witness model
makes `get_tensor_datatype` return BIPOLAR on it. -/
theorem marked_input_datatype_bipolar_witness :
    get_tensor_datatype
      (set_tensor_datatype prepWitnessModel "global_in" DataType.BIPOLAR)
      "global_in" = DataType.BIPOLAR :=
  marked_input_datatype_bipolar prepWitnessModel "global_in" rfl

/-- C6: whenever the preparation cells succeed, the input model file
`cybsec-mlp.onnx` was present in the consumed file system, and the file
system afterwards maps `cybsec-mlp-verified.onnx` to exactly the in-memory
`model_for_sim` used by the later execution cells. -/
theorem saved_model_is_model_for_sim
    (transform : ModelWrapper → Transformation → ModelWrapper)
    (fs0 : FileSystem) (r : PrepResult)
    (h : prepareAndSave transform fs0 = some r) :
    (∃ m0, fs0 "cybsec-mlp.onnx" = some m0) ∧
    r.fs "cybsec-mlp-verified.onnx" = some r.model_for_sim := by
  unfold prepareAndSave at h
  split at h
  · exact absurd h (by simp)
  next m0 hf =>
    dsimp only at h
    split at h
    · exact absurd h (by simp)
    next nm hh =>
      obtain rfl := Option.some.inj h
      exact ⟨⟨m0, hf⟩, by simp⟩

/-- C6 (witness): on the concrete witness file system the preparation
succeeds, and the saved `cybsec-mlp-verified.onnx` is the in-memory
model. -/
theorem saved_model_is_model_for_sim_witness :
    (∃ m0, prepWitnessFS "cybsec-mlp.onnx" = some m0) ∧
    prepWitnessResult.fs "cybsec-mlp-verified.onnx" =
      some prepWitnessResult.model_for_sim :=
  saved_model_is_model_for_sim prepWitnessTransform prepWitnessFS
    prepWitnessResult rfl

/-- C7: given that the quantized test dataset has at least 100 rows, each
of 594 columns (593 boolean features plus the label), the verification
batch is exactly the first 100 rows with the final column excluded: it has
100 samples, sample `i` is row `i` without its last entry, and every
sample is a 593-element vector of boolean-encoded values. -/
theorem verification_batch_first_rows (test_quantized_dataset : QuantizedDataset)
    (hrows : n_verification_inputs ≤ test_quantized_dataset.data.length)
    (hwidth : ∀ row ∈ test_quantized_dataset.data, row.length = 594)
    (hbool : ∀ row ∈ test_quantized_dataset.data, ∀ x ∈ row, x = 0 ∨ x = 1) :
    (input_tensor test_quantized_dataset).length = n_verification_inputs ∧
    (∀ i, i < n_verification_inputs →
      (input_tensor test_quantized_dataset)[i]? =
        (test_quantized_dataset.data[i]?).map List.dropLast) ∧
    (∀ sample ∈ input_tensor test_quantized_dataset, sample.length = 593) ∧
    (∀ sample ∈ input_tensor test_quantized_dataset,
      ∀ x ∈ sample, x = 0 ∨ x = 1) := by
  refine ⟨?_, ?_, ?_, ?_⟩
  · simp [input_tensor, Nat.min_eq_left hrows]
  · intro i hi
    simp [input_tensor, List.getElem?_take, hi]
  · intro sample hs
    rcases List.mem_map.mp hs with ⟨row, hrow, rfl⟩
    have hmem : row ∈ test_quantized_dataset.data := List.take_subset _ _ hrow
    simp [List.length_dropLast, hwidth row hmem]
  · intro sample hs x hx
    rcases List.mem_map.mp hs with ⟨row, hrow, rfl⟩
    have hmem : row ∈ test_quantized_dataset.data := List.take_subset _ _ hrow
    exact hbool row hmem x ((List.dropLast_sublist row).subset hx)

/-- C7 (witness): on the concrete 100-by-594 witness dataset the batch has
100 samples of 593 boolean entries each, drawn from the first rows. -/
theorem verification_batch_first_rows_witness :
    (input_tensor dsWitness).length = n_verification_inputs ∧
    (∀ i, i < n_verification_inputs →
      (input_tensor dsWitness)[i]? = (dsWitness.data[i]?).map List.dropLast) ∧
    (∀ sample ∈ input_tensor dsWitness, sample.length = 593) ∧
    (∀ sample ∈ input_tensor dsWitness, ∀ x ∈ sample, x = 0 ∨ x = 1) :=
  verification_batch_first_rows dsWitness
    (Nat.le_refl 100)
    (by intro row hr
        rw [List.eq_of_mem_replicate hr]
        exact List.length_replicate 594 0)
    (by intro row hr x hx
        rw [List.eq_of_mem_replicate hr] at hx
        exact Or.inl (List.eq_of_mem_replicate hx))

/-- C8: the notebook has no error handling of its own: if any external
call fails — loading the model file, loading the dataset CSVs, loading the
checkpoint, or executing the verification — the whole run returns that
very error, unchanged. -/
theorem external_failures_propagate_unchanged
    {E Model Dataset Checkpoint : Type} (e : E)
    (loadModel : Except E Model) (loadDataset : Except E Dataset)
    (loadCheckpoint : Except E Checkpoint)
    (runVerification : Model → Dataset → Checkpoint → Except E (Nat × Nat)) :
    (loadModel = .error e →
      runScript loadModel loadDataset loadCheckpoint runVerification = .error e) ∧
    (∀ m, loadModel = .ok m → loadDataset = .error e →
      runScript loadModel loadDataset loadCheckpoint runVerification = .error e) ∧
    (∀ m d, loadModel = .ok m → loadDataset = .ok d → loadCheckpoint = .error e →
      runScript loadModel loadDataset loadCheckpoint runVerification = .error e) ∧
    (∀ m d c, loadModel = .ok m → loadDataset = .ok d → loadCheckpoint = .ok c →
      runVerification m d c = .error e →
      runScript loadModel loadDataset loadCheckpoint runVerification = .error e) := by
  refine ⟨fun h => ?_, fun m hm hd => ?_, fun m d hm hd hc => ?_,
    fun m d c hm hd hc hv => ?_⟩
  · subst h; rfl
  · subst hm; subst hd; rfl
  · subst hm; subst hd; subst hc; rfl
  · subst hm; subst hd; subst hc; exact hv

/-- C8 (witness): a file-not-found failure while loading the model file
aborts the concrete run with that same error. -/
theorem external_failures_propagate_unchanged_witness :
    runScript (Except.error "FileNotFoundError: cybsec-mlp.onnx")
      (Except.ok ()) (Except.ok ())
      (fun (_ _ _ : Unit) => Except.ok ((0 : Nat), (0 : Nat))) =
      Except.error "FileNotFoundError: cybsec-mlp.onnx" :=
  (external_failures_propagate_unchanged "FileNotFoundError: cybsec-mlp.onnx"
    (Except.error "FileNotFoundError: cybsec-mlp.onnx") (Except.ok ())
    (Except.ok ()) (fun _ _ _ => Except.ok ((0 : Nat), (0 : Nat)))).1 rfl

/-- C9: for a 593-element boolean input, `inference_with_finn_onnx` hands
`execute_onnx` the tensor `finn_preprocess current_inp` of length 600 all
of whose entries lie in \x7b-1, +1\x7d: its first 593 entries are the
input mapped by `x -> 2*x - 1` and its last 7 (padding) entries are all
`-1`, because the zero-padding happens before the bipolar rescale. -/
theorem finn_onnx_pad_then_bipolar_rescale (execute_onnx : Tensor → Tensor)
    (current_inp : Tensor) (hlen : current_inp.length = 593)
    (hbool : ∀ x ∈ current_inp, x = 0 ∨ x = 1) :
    inference_with_finn_onnx execute_onnx current_inp =
      execute_onnx (finn_preprocess current_inp) ∧
    (finn_preprocess current_inp).length = 600 ∧
    (finn_preprocess current_inp).take 593 =
      current_inp.map (fun x => 2 * x - 1) ∧
    (finn_preprocess current_inp).drop 593 = List.replicate 7 (-1) ∧
    (∀ y ∈ finn_preprocess current_inp, y = -1 ∨ y = 1) := by
  have hmap : finn_preprocess current_inp =
      current_inp.map (fun x => 2 * x - 1) ++ List.replicate 7 (-1) := by
    simp [finn_preprocess, List.map_replicate]
  have h593 : (current_inp.map (fun x => 2 * x - 1)).length = 593 := by
    simp [hlen]
  refine ⟨rfl, ?_, ?_, ?_, ?_⟩
  · simp [hmap, hlen]
  · rw [hmap, ← h593, List.take_left]
  · rw [hmap, ← h593, List.drop_left]
  · intro y hy
    rw [hmap] at hy
    rcases List.mem_append.mp hy with hmem | hmem
    · rcases List.mem_map.mp hmem with ⟨x, hx, rfl⟩
      rcases hbool x hx with rfl | rfl
      · left; norm_num
      · right; norm_num
    · left; exact List.eq_of_mem_replicate hmem

/-- C9 (witness): on the all-zeros 593-element sample, the preprocessing
facts hold concretely. -/
theorem finn_onnx_pad_then_bipolar_rescale_witness :
    inference_with_finn_onnx id cexInput = id (finn_preprocess cexInput) ∧
    (finn_preprocess cexInput).length = 600 ∧
    (finn_preprocess cexInput).take 593 = cexInput.map (fun x => 2 * x - 1) ∧
    (finn_preprocess cexInput).drop 593 = List.replicate 7 (-1) ∧
    (∀ y ∈ finn_preprocess cexInput, y = -1 ∨ y = 1) :=
  finn_onnx_pad_then_bipolar_rescale id cexInput (by simp [cexInput])
    (by intro x hx
        exact Or.inl (List.eq_of_mem_replicate hx))

/-- C10: after `brevitas_model.eval()` the Dropout layers are disabled, so
the Brevitas forward pass is independent of the dropout random masks, and
two runs of the verification loop on the same batch produce identical
`(ok, nok)` tallies and the same final message. -/
theorem eval_mode_verification_deterministic (L : BrevitasLayers)
    (sigmoid : ℚ → ℚ) (execute_onnx : Tensor → Tensor)
    (masks masks' : Nat → Nat → Bool) (inputs : List Tensor) :
    (∀ x, brevitas_forward L false masks x = brevitas_forward L false masks' x) ∧
    verifyLoop (inference_with_brevitas (brevitas_forward L false masks) sigmoid)
        (inference_with_finn_onnx execute_onnx) inputs =
      verifyLoop (inference_with_brevitas (brevitas_forward L false masks') sigmoid)
        (inference_with_finn_onnx execute_onnx) inputs ∧
    finalMessage
        (verifyLoop (inference_with_brevitas (brevitas_forward L false masks) sigmoid)
          (inference_with_finn_onnx execute_onnx) inputs).1 n_verification_inputs =
      finalMessage
        (verifyLoop (inference_with_brevitas (brevitas_forward L false masks') sigmoid)
          (inference_with_finn_onnx execute_onnx) inputs).1 n_verification_inputs :=
  ⟨fun _ => rfl, rfl, rfl⟩

end Finn
